import Mathlib

/-!
Shallow embedding of selected parts of the FiPy finite-volume PDE code base:

* `examples/levelSet/electroChem/gapFillMesh.py` — the numeric prelude of
  `GapFillMesh.__init__` (cell counts, snapped dimensions, boundary-layer row
  count, interface epsilon) and the `TrenchMesh` electrolyte mask.
* `fipy/equations/preRelaxationEquation.py` — `PreRelaxationEquation.buildMatrix`.
* `fipy/models/phase/theta/modCellGradVariable.py` and
  `fipy/models/phase/theta/modFaceGradVariable.py` — the modular gradient
  evaluators (inline/accelerated and reference paths).

Machine floats are embedded as exact rationals; Python `int()` on a float is
truncation toward zero; a Python division whose denominator is zero raises
`ZeroDivisionError`, embedded as an `Except` error.
-/

/-- Python `int()` applied to a numeric value: truncation toward zero. -/
def pyInt (q : ℚ) : ℤ := if 0 ≤ q then ⌊q⌋ else ⌈q⌉

theorem pyInt_eq_floor {q : ℚ} (h : 0 ≤ q) : pyInt q = ⌊q⌋ := by
  simp [pyInt, h]

/-- The five keyword arguments of `GapFillMesh.__init__`. -/
structure GapFillParams where
  cellSize : ℚ
  desiredDomainWidth : ℚ
  desiredDomainHeight : ℚ
  desiredFineRegionHeight : ℚ
  transitionRegionHeight : ℚ
deriving DecidableEq

namespace GapFillMesh

/-- `nx = int(desiredDomainWidth / cellSize)` (gapFillMesh.py line 123). -/
def nx (p : GapFillParams) : ℤ := pyInt (p.desiredDomainWidth / p.cellSize)

/-- `ny = int(desiredFineRegionHeight / cellSize)` (line 124). -/
def ny (p : GapFillParams) : ℤ := pyInt (p.desiredFineRegionHeight / p.cellSize)

/-- `actualFineRegionHeight = ny * cellSize` (line 127). -/
def actualFineRegionHeight (p : GapFillParams) : ℚ := (ny p : ℚ) * p.cellSize

/-- `actualDomainWidth = nx * cellSize` (line 128). -/
def actualDomainWidth (p : GapFillParams) : ℚ := (nx p : ℚ) * p.cellSize

/-- `boundaryLayerHeight = desiredDomainHeight - actualFineRegionHeight -
transitionRegionHeight` (line 129). -/
def boundaryLayerHeight (p : GapFillParams) : ℚ :=
  p.desiredDomainHeight - actualFineRegionHeight p - p.transitionRegionHeight

/-- `numberOfBoundaryLayerCells = int(boundaryLayerHeight / actualDomainWidth)`
(line 130). -/
def numberOfBoundaryLayerCells (p : GapFillParams) : ℤ :=
  pyInt (boundaryLayerHeight p / actualDomainWidth p)

/-- The numeric quantities `GapFillMesh.__init__` has computed by the time it
invokes the external mesh generator (lines 122-137). -/
structure InitResult where
  nx : ℤ
  ny : ℤ
  actualFineRegionHeight : ℚ
  actualDomainWidth : ℚ
  boundaryLayerHeight : ℚ
  numberOfBoundaryLayerCells : ℤ
  eps : ℚ
deriving DecidableEq

/-- The only synchronous failures the constructor's numeric prelude can raise:
Python `ZeroDivisionError`s, tagged by the division that raises first. -/
inductive InitError where
  /-- `cellSize = 0` makes `int(desiredDomainWidth / cellSize)` raise (line 123). -/
  | zeroDivisionCellSize
  /-- `actualDomainWidth = 0` makes
  `int(boundaryLayerHeight / actualDomainWidth)` raise (line 130). -/
  | zeroDivisionActualDomainWidth
  /-- `nx = 0` makes `eps = cellSize / nx / 10` raise (line 135); unreachable in
  fact, because `nx = 0` forces `actualDomainWidth = 0` and line 130 raises first. -/
  | zeroDivisionNx
deriving DecidableEq

/-- The numeric prelude of `GapFillMesh.__init__` (lines 122-135), up to the
point where the gmsh geometry string is emitted.  It contains no input
validation: the only way it can fail is a `ZeroDivisionError`. -/
def init (p : GapFillParams) : Except InitError InitResult :=
  if p.cellSize = 0 then .error .zeroDivisionCellSize
  else if actualDomainWidth p = 0 then .error .zeroDivisionActualDomainWidth
  else if nx p = 0 then .error .zeroDivisionNx
  else .ok
    { nx := nx p
      ny := ny p
      actualFineRegionHeight := actualFineRegionHeight p
      actualDomainWidth := actualDomainWidth p
      boundaryLayerHeight := boundaryLayerHeight p
      numberOfBoundaryLayerCells := numberOfBoundaryLayerCells p
      eps := p.cellSize / (nx p : ℚ) / 10 }

end GapFillMesh

namespace TrenchMesh

/-- `heightBelowTrench = cellSize * 10.` (gapFillMesh.py line 246). -/
def heightBelowTrench (cellSize : ℚ) : ℚ := cellSize * 10

/-- `trenchWidth = trenchDepth / aspectRatio` (line 261). -/
def trenchWidth (trenchDepth aspectRatio : ℚ) : ℚ := trenchDepth / aspectRatio

/-- One entry of the `electrolyteMask` array (lines 263-272), for the cell whose
center is `(x, y)`.  `tanAngle` stands for the value of `numerix.tan(angle)`, so
that `tanAngle * (y - (heightBelowTrench + trenchDepth / 2))` is the `taper`
of lines 264-265; the three nested `numerix.where` calls act elementwise. -/
def electrolyteMask (trenchDepth trenchWidth heightBelowTrench tanAngle x y : ℚ) : ℤ :=
  if y > trenchDepth + heightBelowTrench then 1
  else if y < heightBelowTrench then 0
  else if x > trenchWidth / 2 + tanAngle * (y - (heightBelowTrench + trenchDepth / 2)) then 0
  else 1

end TrenchMesh

/-- The assembled linear system held by a `RelaxationEquation`: the sparse
matrix `L` over the `n` cells and the right-hand-side vector `b`. -/
structure SweepSystem (n : ℕ) where
  L : Fin n → Fin n → ℚ
  b : Fin n → ℚ

theorem SweepSystem.ext_iff {n : ℕ} (s t : SweepSystem n) :
    s = t ↔ s.L = t.L ∧ s.b = t.b := by
  constructor
  · intro h; subst h; exact ⟨rfl, rfl⟩
  · intro ⟨hL, hb⟩; cases s; cases t; cases hL; cases hb; rfl

namespace PreRelaxationEquation

/-- `PreRelaxationEquation.buildMatrix` (preRelaxationEquation.py lines 47-54),
applied to the system `s` produced by the fresh unrelaxed
`RelaxationEquation.buildMatrix(self)` of line 48:
`Lii = self.b.copy()` allocates the workspace that `self.L.get_diagonal(Lii)`
then overwrites with the diagonal of `L`; `Lii /= self.relaxation`;
`self.b += (1 - self.relaxation) * Lii * self.oldSweepArray`;
`self.L.put_diagonal(Lii)`. -/
def buildMatrix {n : ℕ} (relaxation : ℚ) (oldSweepArray : Fin n → ℚ)
    (s : SweepSystem n) : SweepSystem n :=
  let Lii : Fin n → ℚ := fun i => s.L i i
  let Lii : Fin n → ℚ := fun i => Lii i / relaxation
  { L := fun i j => if i = j then Lii i else s.L i j
    b := fun i => s.b i + (1 - relaxation) * Lii i * oldSweepArray i }

end PreRelaxationEquation

/-- The accumulation `acc += f k` for `k = 0 .. M-1` of an inline C loop equals
the corresponding finite sum. -/
theorem foldl_add_range (f : ℕ → ℚ) (M : ℕ) :
    (List.range M).foldl (fun acc k => acc + f k) 0 = ∑ k ∈ Finset.range M, f k := by
  induction M with
  | zero => simp
  | succ m ih =>
      rw [List.range_succ, List.foldl_append, ih, Finset.sum_range_succ]
      simp

namespace ModCellGradVariable

/-- `ModCellGradVariable._calcValueIn` (modCellGradVariable.py lines 51-72): the
accelerated inline path, transcribed from the C loop body for cell `i` and
spatial component `j`, with `M` faces per cell.  `mod` is the compiled form of
the wrap function `self.modIn`. -/
def calcValueIn (mod : ℚ → ℚ) (M : ℕ) (ids : ℕ → ℕ → ℕ)
    (orientations : ℕ → ℕ → ℚ) (volumes : ℕ → ℚ) (areaProj : ℕ → ℕ → ℚ)
    (faceValues : ℕ → ℚ) (gridSpacing : ℕ → ℚ) (i j : ℕ) : ℚ :=
  let val := (List.range M).foldl
    (fun acc k => acc + orientations i k * areaProj (ids i k) j * faceValues (ids i k)) 0
  let val := val / volumes i
  mod (val * gridSpacing j) / gridSpacing j

/-- Modelled from the spec: the parent class reference path
`CellGradVariable._calcValuePy`, invoked at modCellGradVariable.py line 75, is
not among the source files.  Per the spec (§4.3) it computes the Green-Gauss
cell gradient: the sum, over each cell's incident faces, of the
face-interpolated value times the oriented face-area-projection vector, divided
by the cell volume. -/
def cellGradValuePy (M : ℕ) (ids : ℕ → ℕ → ℕ) (orientations : ℕ → ℕ → ℚ)
    (volumes : ℕ → ℚ) (areaProj : ℕ → ℕ → ℚ) (faceValues : ℕ → ℚ) (i j : ℕ) : ℚ :=
  (∑ k ∈ Finset.range M, orientations i k * areaProj (ids i k) j * faceValues (ids i k))
    / volumes i

/-- `ModCellGradVariable._calcValuePy` (lines 74-77): the reference path; after
the parent's Green-Gauss gradient, `self.value = self.modPy(self.value *
gridSpacing) / gridSpacing`, broadcasting over the spatial component `j`. -/
def calcValuePy (mod : ℚ → ℚ) (M : ℕ) (ids : ℕ → ℕ → ℕ)
    (orientations : ℕ → ℕ → ℚ) (volumes : ℕ → ℚ) (areaProj : ℕ → ℕ → ℚ)
    (faceValues : ℕ → ℚ) (gridSpacing : ℕ → ℚ) (i j : ℕ) : ℚ :=
  mod (cellGradValuePy M ids orientations volumes areaProj faceValues i j * gridSpacing j)
    / gridSpacing j

end ModCellGradVariable

namespace ModFaceGradVariable

/-- `ModFaceGradVariable._calcValueInline` (modFaceGradVariable.py lines 50-91):
the accelerated inline path, transcribed from the C loop body for face `i` and
spatial component `j`, with `nj` spatial dimensions.  `mod` is the compiled
form of the wrap function `self.mod`; `vr` is the cell-value array `var`. -/
def calcValueInline (mod : ℚ → ℚ) (nj : ℕ) (id1 id2 : ℕ → ℕ)
    (tangents1 tangents2 normals : ℕ → ℕ → ℚ) (cellGrad : ℕ → ℕ → ℚ)
    (dAP vr : ℕ → ℚ) (i j : ℕ) : ℚ :=
  let N := mod (vr (id2 i) - vr (id1 i)) / dAP i
  let t1grad1 := (List.range nj).foldl (fun acc m => acc + tangents1 i m * cellGrad (id1 i) m) 0
  let t1grad2 := (List.range nj).foldl (fun acc m => acc + tangents1 i m * cellGrad (id2 i) m) 0
  let t2grad1 := (List.range nj).foldl (fun acc m => acc + tangents2 i m * cellGrad (id1 i) m) 0
  let t2grad2 := (List.range nj).foldl (fun acc m => acc + tangents2 i m * cellGrad (id2 i) m) 0
  normals i j * N + tangents1 i j * (t1grad1 + t1grad2) / 2
    + tangents2 i j * (t2grad1 + t2grad2) / 2

/-- Modelled from the spec: the reference (non-accelerated) face-gradient path
inherited from `FaceGradVariable` is not among the source files.  Per the spec
(§4.3) it computes, per face, a normal-direction finite difference between the
two adjacent cells' values divided by the inter-cell distance — the difference
passed through the same wrap function — plus a tangential component from
averaging the two cells' already-computed gradients projected onto the face
tangents. -/
def faceGradReference (mod : ℚ → ℚ) (nj : ℕ) (id1 id2 : ℕ → ℕ)
    (tangents1 tangents2 normals : ℕ → ℕ → ℚ) (cellGrad : ℕ → ℕ → ℚ)
    (dAP vr : ℕ → ℚ) (i j : ℕ) : ℚ :=
  normals i j * (mod (vr (id2 i) - vr (id1 i)) / dAP i)
    + tangents1 i j * ((∑ m ∈ Finset.range nj, tangents1 i m * cellGrad (id1 i) m)
        + ∑ m ∈ Finset.range nj, tangents1 i m * cellGrad (id2 i) m) / 2
    + tangents2 i j * ((∑ m ∈ Finset.range nj, tangents2 i m * cellGrad (id1 i) m)
        + ∑ m ∈ Finset.range nj, tangents2 i m * cellGrad (id2 i) m) / 2

end ModFaceGradVariable

/-- C1: the claim says invalid inputs are rejected synchronously at
construction time (`InvalidDomainError` for negative `boundaryLayerHeight`,
user-input errors for non-positive `cellSize`/`nx`/`ny` or
`numberOfBoundaryLayerCells < 1`).  Counterexample: with `cellSize = 1`,
`desiredDomainWidth = 1`, `desiredDomainHeight = 1`,
`desiredFineRegionHeight = 1`, `transitionRegionHeight = 1` the computed
`boundaryLayerHeight` is `-1 < 0` and `numberOfBoundaryLayerCells = -1 < 1`,
yet the constructor's numeric prelude completes normally. -/
theorem C1_counterexample :
    GapFillMesh.boundaryLayerHeight ⟨1, 1, 1, 1, 1⟩ < 0 ∧
    GapFillMesh.numberOfBoundaryLayerCells ⟨1, 1, 1, 1, 1⟩ < 1 ∧
    GapFillMesh.init ⟨1, 1, 1, 1, 1⟩ = .ok ⟨1, 1, 1, 1, -1, -1, 1 / 10⟩ := by
  have hnx : GapFillMesh.nx ⟨1, 1, 1, 1, 1⟩ = 1 := by
    norm_num [GapFillMesh.nx, pyInt]
  have hny : GapFillMesh.ny ⟨1, 1, 1, 1, 1⟩ = 1 := by
    norm_num [GapFillMesh.ny, pyInt]
  have hafh : GapFillMesh.actualFineRegionHeight ⟨1, 1, 1, 1, 1⟩ = 1 := by
    rw [GapFillMesh.actualFineRegionHeight, hny]; norm_num
  have hadw : GapFillMesh.actualDomainWidth ⟨1, 1, 1, 1, 1⟩ = 1 := by
    rw [GapFillMesh.actualDomainWidth, hnx]; norm_num
  have hblh : GapFillMesh.boundaryLayerHeight ⟨1, 1, 1, 1, 1⟩ = -1 := by
    rw [GapFillMesh.boundaryLayerHeight, hafh]; norm_num
  have hnblc : GapFillMesh.numberOfBoundaryLayerCells ⟨1, 1, 1, 1, 1⟩ = -1 := by
    rw [GapFillMesh.numberOfBoundaryLayerCells, hblh, hadw]
    norm_num [pyInt, Int.ceil_neg]
  refine ⟨by rw [hblh]; norm_num, by rw [hnblc]; norm_num, ?_⟩
  unfold GapFillMesh.init
  rw [if_neg (show ¬(⟨1, 1, 1, 1, 1⟩ : GapFillParams).cellSize = 0 by norm_num),
    if_neg (show ¬GapFillMesh.actualDomainWidth ⟨1, 1, 1, 1, 1⟩ = 0 by
      rw [hadw]; norm_num),
    if_neg (show ¬GapFillMesh.nx ⟨1, 1, 1, 1, 1⟩ = 0 by rw [hnx]; norm_num)]
  simp only [hnx, hny, hafh, hadw, hblh, hnblc]
  norm_num

/-- C1 (amended): `GapFillMesh.__init__` performs no input validation at all.
Whenever its two divisions are defined (`cellSize ≠ 0` and `nx ≠ 0`), the
numeric prelude completes normally — even when `boundaryLayerHeight` is
negative, `nx`/`ny` are non-positive, or `numberOfBoundaryLayerCells < 1` —
deferring any failure to the external mesh generator; the only synchronous
failures are `ZeroDivisionError`s. -/
theorem C1_no_validation (p : GapFillParams)
    (hcs : p.cellSize ≠ 0) (hnx : GapFillMesh.nx p ≠ 0) :
    ∃ r, GapFillMesh.init p = .ok r := by
  have hadw : GapFillMesh.actualDomainWidth p ≠ 0 :=
    mul_ne_zero (Int.cast_ne_zero.mpr hnx) hcs
  unfold GapFillMesh.init
  rw [if_neg hcs, if_neg hadw, if_neg hnx]
  exact ⟨_, rfl⟩

/-- C1 witness: the amended theorem applied at the counterexample input. -/
theorem C1_no_validation_witness :
    (⟨1, 1, 1, 1, 1⟩ : GapFillParams).cellSize ≠ 0 ∧
    GapFillMesh.nx ⟨1, 1, 1, 1, 1⟩ ≠ 0 ∧
    ∃ r, GapFillMesh.init ⟨1, 1, 1, 1, 1⟩ = .ok r :=
  ⟨by norm_num, by norm_num [GapFillMesh.nx, pyInt],
    C1_no_validation ⟨1, 1, 1, 1, 1⟩ (by norm_num) (by norm_num [GapFillMesh.nx, pyInt])⟩

/-- C4: for positive `cellSize`, `desiredDomainWidth` and
`desiredFineRegionHeight`, the constructor computes
`nx = floor(desiredDomainWidth/cellSize)`,
`ny = floor(desiredFineRegionHeight/cellSize)`, the snapped width and height
equal `nx*cellSize` and `ny*cellSize`, and `nx*cellSize ≤ desiredDomainWidth`. -/
theorem C4_snapped_dimensions (p : GapFillParams) (hcs : 0 < p.cellSize)
    (hw : 0 < p.desiredDomainWidth) (hfh : 0 < p.desiredFineRegionHeight) :
    GapFillMesh.nx p = ⌊p.desiredDomainWidth / p.cellSize⌋ ∧
    GapFillMesh.ny p = ⌊p.desiredFineRegionHeight / p.cellSize⌋ ∧
    GapFillMesh.actualDomainWidth p = (GapFillMesh.nx p : ℚ) * p.cellSize ∧
    GapFillMesh.actualFineRegionHeight p = (GapFillMesh.ny p : ℚ) * p.cellSize ∧
    (GapFillMesh.nx p : ℚ) * p.cellSize ≤ p.desiredDomainWidth := by
  refine ⟨pyInt_eq_floor (div_nonneg hw.le hcs.le),
    pyInt_eq_floor (div_nonneg hfh.le hcs.le), rfl, rfl, ?_⟩
  have hle : (GapFillMesh.nx p : ℚ) ≤ p.desiredDomainWidth / p.cellSize := by
    rw [GapFillMesh.nx, pyInt_eq_floor (div_nonneg hw.le hcs.le)]
    exact Int.floor_le _
  calc (GapFillMesh.nx p : ℚ) * p.cellSize
      ≤ p.desiredDomainWidth / p.cellSize * p.cellSize :=
        mul_le_mul_of_nonneg_right hle hcs.le
    _ = p.desiredDomainWidth := div_mul_cancel₀ _ hcs.ne'

/-- C4 witness: the snapping theorem at `cellSize = 1/10`,
`desiredDomainWidth = 1`, `desiredFineRegionHeight = 1`. -/
theorem C4_snapped_dimensions_witness :
    0 < (⟨1/10, 1, 5, 1, 2⟩ : GapFillParams).cellSize ∧
    0 < (⟨1/10, 1, 5, 1, 2⟩ : GapFillParams).desiredDomainWidth ∧
    0 < (⟨1/10, 1, 5, 1, 2⟩ : GapFillParams).desiredFineRegionHeight ∧
    (GapFillMesh.nx ⟨1/10, 1, 5, 1, 2⟩ =
      ⌊(⟨1/10, 1, 5, 1, 2⟩ : GapFillParams).desiredDomainWidth /
        (⟨1/10, 1, 5, 1, 2⟩ : GapFillParams).cellSize⌋ ∧
    GapFillMesh.ny ⟨1/10, 1, 5, 1, 2⟩ =
      ⌊(⟨1/10, 1, 5, 1, 2⟩ : GapFillParams).desiredFineRegionHeight /
        (⟨1/10, 1, 5, 1, 2⟩ : GapFillParams).cellSize⌋ ∧
    GapFillMesh.actualDomainWidth ⟨1/10, 1, 5, 1, 2⟩ =
      (GapFillMesh.nx ⟨1/10, 1, 5, 1, 2⟩ : ℚ) *
        (⟨1/10, 1, 5, 1, 2⟩ : GapFillParams).cellSize ∧
    GapFillMesh.actualFineRegionHeight ⟨1/10, 1, 5, 1, 2⟩ =
      (GapFillMesh.ny ⟨1/10, 1, 5, 1, 2⟩ : ℚ) *
        (⟨1/10, 1, 5, 1, 2⟩ : GapFillParams).cellSize ∧
    (GapFillMesh.nx ⟨1/10, 1, 5, 1, 2⟩ : ℚ) *
        (⟨1/10, 1, 5, 1, 2⟩ : GapFillParams).cellSize ≤
      (⟨1/10, 1, 5, 1, 2⟩ : GapFillParams).desiredDomainWidth) :=
  ⟨by norm_num, by norm_num, by norm_num,
    C4_snapped_dimensions ⟨1/10, 1, 5, 1, 2⟩ (by norm_num) (by norm_num)
      (by norm_num)⟩

/-- C5: whenever the snapped domain width is positive and the computed
boundary-layer height is nonnegative, the coarse boundary-layer row count
equals `floor(boundaryLayerHeight / actualDomainWidth)`. -/
theorem C5_boundary_layer_rows (p : GapFillParams)
    (hadw : 0 < GapFillMesh.actualDomainWidth p)
    (hblh : 0 ≤ GapFillMesh.boundaryLayerHeight p) :
    GapFillMesh.numberOfBoundaryLayerCells p =
      ⌊GapFillMesh.boundaryLayerHeight p / GapFillMesh.actualDomainWidth p⌋ :=
  pyInt_eq_floor (div_nonneg hblh hadw.le)

/-- C5 witness: the spec's scenario `cellSize = 1/10`, `desiredDomainWidth = 1`,
`desiredFineRegionHeight = 1`, `transitionRegionHeight = 2`,
`desiredDomainHeight = 5`: `nx = ny = 10`, `boundaryLayerHeight = 2`, and
`numberOfBoundaryLayerCells = floor(2/1) = 2`. -/
theorem C5_boundary_layer_rows_witness :
    0 < GapFillMesh.actualDomainWidth ⟨1/10, 1, 5, 1, 2⟩ ∧
    0 ≤ GapFillMesh.boundaryLayerHeight ⟨1/10, 1, 5, 1, 2⟩ ∧
    GapFillMesh.numberOfBoundaryLayerCells ⟨1/10, 1, 5, 1, 2⟩ =
      ⌊GapFillMesh.boundaryLayerHeight ⟨1/10, 1, 5, 1, 2⟩ /
        GapFillMesh.actualDomainWidth ⟨1/10, 1, 5, 1, 2⟩⌋ ∧
    GapFillMesh.nx ⟨1/10, 1, 5, 1, 2⟩ = 10 ∧
    GapFillMesh.ny ⟨1/10, 1, 5, 1, 2⟩ = 10 ∧
    GapFillMesh.boundaryLayerHeight ⟨1/10, 1, 5, 1, 2⟩ = 2 ∧
    GapFillMesh.numberOfBoundaryLayerCells ⟨1/10, 1, 5, 1, 2⟩ = 2 := by
  have hnx : GapFillMesh.nx ⟨1/10, 1, 5, 1, 2⟩ = 10 := by
    norm_num [GapFillMesh.nx, pyInt]
  have hny : GapFillMesh.ny ⟨1/10, 1, 5, 1, 2⟩ = 10 := by
    norm_num [GapFillMesh.ny, pyInt]
  have hadw : GapFillMesh.actualDomainWidth ⟨1/10, 1, 5, 1, 2⟩ = 1 := by
    rw [GapFillMesh.actualDomainWidth, hnx]; norm_num
  have hblh : GapFillMesh.boundaryLayerHeight ⟨1/10, 1, 5, 1, 2⟩ = 2 := by
    rw [GapFillMesh.boundaryLayerHeight, GapFillMesh.actualFineRegionHeight, hny]
    norm_num
  have hadw0 : 0 < GapFillMesh.actualDomainWidth ⟨1/10, 1, 5, 1, 2⟩ := by
    rw [hadw]; norm_num
  have hblh0 : 0 ≤ GapFillMesh.boundaryLayerHeight ⟨1/10, 1, 5, 1, 2⟩ := by
    rw [hblh]; norm_num
  have hnblc : GapFillMesh.numberOfBoundaryLayerCells ⟨1/10, 1, 5, 1, 2⟩ = 2 := by
    rw [GapFillMesh.numberOfBoundaryLayerCells, hblh, hadw]
    norm_num [pyInt]
  exact ⟨hadw0, hblh0, C5_boundary_layer_rows _ hadw0 hblh0, hnx, hny, hblh, hnblc⟩

/-- C10: for inputs with `0 ≤ desiredDomainWidth < cellSize` (so `nx = 0`), the
constructor — which divides by `nx` with no guard — fails with a
`ZeroDivisionError`, not a domain-validation error, before any mesh is
produced; the division that raises is
`int(boundaryLayerHeight / actualDomainWidth)` at line 130, whose denominator
`actualDomainWidth = nx * cellSize` is zero exactly because `nx = 0`, so the
unguarded `eps = cellSize / nx / 10` of line 135 is never reached. -/
theorem C10_zero_division (p : GapFillParams) (hcs : 0 < p.cellSize)
    (hw0 : 0 ≤ p.desiredDomainWidth) (hw : p.desiredDomainWidth < p.cellSize) :
    GapFillMesh.init p = .error .zeroDivisionActualDomainWidth := by
  have hq0 : 0 ≤ p.desiredDomainWidth / p.cellSize := div_nonneg hw0 hcs.le
  have hq1 : p.desiredDomainWidth / p.cellSize < 1 := (div_lt_one hcs).mpr hw
  have hnx : GapFillMesh.nx p = 0 := by
    rw [GapFillMesh.nx, pyInt_eq_floor hq0]
    exact Int.floor_eq_zero_iff.mpr ⟨hq0, hq1⟩
  have hadw : GapFillMesh.actualDomainWidth p = 0 := by
    rw [GapFillMesh.actualDomainWidth, hnx]
    simp
  unfold GapFillMesh.init
  rw [if_neg hcs.ne', if_pos hadw]

/-- C10 witness: `cellSize = 1`, `desiredDomainWidth = 1/2 < 1`. -/
theorem C10_zero_division_witness :
    0 < (⟨1, 1/2, 5, 1, 2⟩ : GapFillParams).cellSize ∧
    0 ≤ (⟨1, 1/2, 5, 1, 2⟩ : GapFillParams).desiredDomainWidth ∧
    (⟨1, 1/2, 5, 1, 2⟩ : GapFillParams).desiredDomainWidth <
      (⟨1, 1/2, 5, 1, 2⟩ : GapFillParams).cellSize ∧
    GapFillMesh.init ⟨1, 1/2, 5, 1, 2⟩ = .error .zeroDivisionActualDomainWidth :=
  ⟨by norm_num, by norm_num, by norm_num,
    C10_zero_division ⟨1, 1/2, 5, 1, 2⟩ (by norm_num) (by norm_num) (by norm_num)⟩

/-- C2: for a relaxation factor `r ∈ (0,1]`, `PreRelaxationEquation.buildMatrix`
applied once to the freshly assembled unrelaxed system `s` rescales the matrix
diagonal `Lii` by `1/r` and writes it back into `L`, adds
`(1-r)*Lii*oldSweepArray` (with `Lii` the rescaled diagonal) to `b`, and leaves
every off-diagonal entry of `L` — and contributes nothing else to `b` — as in
the unrelaxed build. -/
theorem C2_relaxation_steps {n : ℕ} (r : ℚ) (oldSweepArray : Fin n → ℚ)
    (s : SweepSystem n) (h0 : 0 < r) (h1 : r ≤ 1) :
    (∀ i, (PreRelaxationEquation.buildMatrix r oldSweepArray s).L i i = s.L i i / r) ∧
    (∀ i j, i ≠ j →
      (PreRelaxationEquation.buildMatrix r oldSweepArray s).L i j = s.L i j) ∧
    (∀ i, (PreRelaxationEquation.buildMatrix r oldSweepArray s).b i =
      s.b i + (1 - r) * (s.L i i / r) * oldSweepArray i) := by
  refine ⟨fun i => ?_, fun i j hij => ?_, fun i => ?_⟩
  · simp [PreRelaxationEquation.buildMatrix]
  · simp [PreRelaxationEquation.buildMatrix, hij]
  · rfl

/-- C2 witness: the relaxation theorem at `n = 1`, `r = 1/2`,
`oldSweepArray = (3)`, `L = (4)`, `b = (5)`. -/
theorem C2_relaxation_steps_witness :
    (0 : ℚ) < 1/2 ∧ (1/2 : ℚ) ≤ 1 ∧
    ((∀ i, (PreRelaxationEquation.buildMatrix (1/2) (fun _ => 3)
        (⟨fun _ _ => 4, fun _ => 5⟩ : SweepSystem 1)).L i i =
      (⟨fun _ _ => 4, fun _ => 5⟩ : SweepSystem 1).L i i / (1/2)) ∧
    (∀ i j, i ≠ j →
      (PreRelaxationEquation.buildMatrix (1/2) (fun _ => 3)
        (⟨fun _ _ => 4, fun _ => 5⟩ : SweepSystem 1)).L i j =
      (⟨fun _ _ => 4, fun _ => 5⟩ : SweepSystem 1).L i j) ∧
    (∀ i, (PreRelaxationEquation.buildMatrix (1/2) (fun _ => 3)
        (⟨fun _ _ => 4, fun _ => 5⟩ : SweepSystem 1)).b i =
      (⟨fun _ _ => 4, fun _ => 5⟩ : SweepSystem 1).b i +
        (1 - 1/2) * ((⟨fun _ _ => 4, fun _ => 5⟩ : SweepSystem 1).L i i / (1/2)) * 3)) :=
  ⟨by norm_num, by norm_num,
    C2_relaxation_steps (1/2) (fun _ => 3) ⟨fun _ _ => 4, fun _ => 5⟩
      (by norm_num) (by norm_num)⟩

/-- C3: with relaxation factor `r = 1`, `PreRelaxationEquation.buildMatrix` is
the identity on the assembled system: for every matrix `L`, right-hand side
`b`, and previous iterate `oldSweepArray`, the relaxed `L` and `b` equal those
of the unrelaxed build. -/
theorem C3_identity_at_one {n : ℕ} (oldSweepArray : Fin n → ℚ) (s : SweepSystem n) :
    PreRelaxationEquation.buildMatrix 1 oldSweepArray s = s := by
  rw [SweepSystem.ext_iff]
  refine ⟨funext fun i => funext fun j => ?_, funext fun i => ?_⟩
  · by_cases h : i = j
    · subst h; simp [PreRelaxationEquation.buildMatrix]
    · simp [PreRelaxationEquation.buildMatrix, h]
  · simp [PreRelaxationEquation.buildMatrix]

/-- C8: for a `TrenchMesh` with `angle = 0` (so `numerix.tan(angle) = 0`) and
nonnegative trench depth, every cell center with
`y > trenchDepth + heightBelowTrench` gets `electrolyteMask = 1` and every cell
center with `y < heightBelowTrench` gets `electrolyteMask = 0`, regardless of
`x`, where `heightBelowTrench = 10 * cellSize`. -/
theorem C8_flat_trench_mask (trenchDepth cellSize trenchWidth x y : ℚ)
    (hd : 0 ≤ trenchDepth) :
    (y > trenchDepth + TrenchMesh.heightBelowTrench cellSize →
      TrenchMesh.electrolyteMask trenchDepth trenchWidth
        (TrenchMesh.heightBelowTrench cellSize) 0 x y = 1) ∧
    (y < TrenchMesh.heightBelowTrench cellSize →
      TrenchMesh.electrolyteMask trenchDepth trenchWidth
        (TrenchMesh.heightBelowTrench cellSize) 0 x y = 0) := by
  constructor
  · intro h
    simp [TrenchMesh.electrolyteMask, h]
  · intro h
    have habove : ¬(y > trenchDepth + TrenchMesh.heightBelowTrench cellSize) := by
      push_neg
      calc y ≤ TrenchMesh.heightBelowTrench cellSize := h.le
        _ ≤ trenchDepth + TrenchMesh.heightBelowTrench cellSize := le_add_of_nonneg_left hd
    simp [TrenchMesh.electrolyteMask, habove, h]

/-- C8 witness: `trenchDepth = 1`, `cellSize = 1/10` (so
`heightBelowTrench = 1`), `trenchWidth = 1`, `x = 5`: the cell at `y = 10` is
masked `1` and the cell at `y = 1/2` is masked `0`. -/
theorem C8_flat_trench_mask_witness :
    (0 : ℚ) ≤ 1 ∧
    TrenchMesh.electrolyteMask 1 1 (TrenchMesh.heightBelowTrench (1/10)) 0 5 10 = 1 ∧
    TrenchMesh.electrolyteMask 1 1 (TrenchMesh.heightBelowTrench (1/10)) 0 5 (1/2) = 0 :=
  ⟨by norm_num,
    (C8_flat_trench_mask 1 (1/10) 1 5 10 (by norm_num)).1
      (by norm_num [TrenchMesh.heightBelowTrench]),
    (C8_flat_trench_mask 1 (1/10) 1 5 (1/2) (by norm_num)).2
      (by norm_num [TrenchMesh.heightBelowTrench])⟩

/-- C9: for every `TrenchMesh` construction — any trench depth, width,
`heightBelowTrench`, taper slope `tanAngle`, and cell center `(x, y)` — the
`electrolyteMask` entry is either `0` or `1`: the three nested comparisons
classify every cell. -/
theorem C9_mask_total (trenchDepth trenchWidth hBT tanAngle x y : ℚ) :
    TrenchMesh.electrolyteMask trenchDepth trenchWidth hBT tanAngle x y = 0 ∨
    TrenchMesh.electrolyteMask trenchDepth trenchWidth hBT tanAngle x y = 1 := by
  unfold TrenchMesh.electrolyteMask
  split_ifs <;> simp

/-- C6: both modular gradient evaluators agree with their reference
(non-accelerated) paths on every input, in exact arithmetic: the inline cell
path `ModCellGradVariable._calcValueIn` equals the reference
`ModCellGradVariable._calcValuePy`, and the inline face path
`ModFaceGradVariable._calcValueInline` equals the reference face-gradient
evaluation. -/
theorem C6_accelerated_matches_reference :
    (∀ (mod : ℚ → ℚ) (M : ℕ) (ids : ℕ → ℕ → ℕ) (orientations : ℕ → ℕ → ℚ)
      (volumes : ℕ → ℚ) (areaProj : ℕ → ℕ → ℚ) (faceValues gridSpacing : ℕ → ℚ)
      (i j : ℕ),
      ModCellGradVariable.calcValueIn mod M ids orientations volumes areaProj
          faceValues gridSpacing i j =
        ModCellGradVariable.calcValuePy mod M ids orientations volumes areaProj
          faceValues gridSpacing i j) ∧
    (∀ (mod : ℚ → ℚ) (nj : ℕ) (id1 id2 : ℕ → ℕ)
      (tangents1 tangents2 normals : ℕ → ℕ → ℚ) (cellGrad : ℕ → ℕ → ℚ)
      (dAP vr : ℕ → ℚ) (i j : ℕ),
      ModFaceGradVariable.calcValueInline mod nj id1 id2 tangents1 tangents2
          normals cellGrad dAP vr i j =
        ModFaceGradVariable.faceGradReference mod nj id1 id2 tangents1 tangents2
          normals cellGrad dAP vr i j) := by
  constructor
  · intro mod M ids orientations volumes areaProj faceValues gridSpacing i j
    simp only [ModCellGradVariable.calcValueIn, ModCellGradVariable.calcValuePy,
      ModCellGradVariable.cellGradValuePy, foldl_add_range]
  · intro mod nj id1 id2 tangents1 tangents2 normals cellGrad dAP vr i j
    simp only [ModFaceGradVariable.calcValueInline,
      ModFaceGradVariable.faceGradReference, foldl_add_range]

/-- C7: for every field, grid spacing, cell `i` and spatial component `j`, the
modular cell gradient — on the accelerated path and on the reference path
alike — equals the periodic wrap of (Green-Gauss gradient component times the
grid spacing for that component) divided back by that grid spacing. -/
theorem C7_wrap_of_green_gauss (mod : ℚ → ℚ) (M : ℕ) (ids : ℕ → ℕ → ℕ)
    (orientations : ℕ → ℕ → ℚ) (volumes : ℕ → ℚ) (areaProj : ℕ → ℕ → ℚ)
    (faceValues gridSpacing : ℕ → ℚ) (i j : ℕ) :
    ModCellGradVariable.calcValueIn mod M ids orientations volumes areaProj
        faceValues gridSpacing i j =
      mod (ModCellGradVariable.cellGradValuePy M ids orientations volumes areaProj
          faceValues i j * gridSpacing j) / gridSpacing j ∧
    ModCellGradVariable.calcValuePy mod M ids orientations volumes areaProj
        faceValues gridSpacing i j =
      mod (ModCellGradVariable.cellGradValuePy M ids orientations volumes areaProj
          faceValues i j * gridSpacing j) / gridSpacing j := by
  constructor
  · simp only [ModCellGradVariable.calcValueIn, ModCellGradVariable.cellGradValuePy,
      foldl_add_range]
  · rfl
